import Mathlib

/-!
Shallow embedding of the `is-even-ai` Go package (philwo/is-even-ai).

Go's `(*bool, error)` return pair is embedded as `Option Bool × Option String`:
the first component is the tri-state result (`some true` / `some false` /
`none` = undefined), the second is the error (`none` = nil error, `some msg`
= a non-nil error whose `Error()` string is `msg`).  Go `int` arguments are
embedded as `Int` (templates are arbitrary functions of the arguments, so
machine-width overflow never enters the picture).  Nil-able Go function
fields become `Option` of a Lean function.
-/

namespace IsEvenAi

/-- Result of one Go call returning `(*bool, error)`: tri-state result and
error, exactly the pair shape of the source. -/
abbrev GoRes := Option Bool × Option String

/-- `QueryFunc` from core.go: takes a prompt string, returns a tri-state
boolean result or an error. -/
abbrev QueryFunc := String → GoRes

/-- `IsEvenAiCorePromptTemplates` from core.go: six template slots, the
optional ones (`IsOdd`, `AreNotEqual`, `IsLessThan`) may be nil, embedded
as `Option`.  The mandatory ones may also be nil in Go (a zero-value
struct), which `getPrompt` reports as an error, so all six are `Option`. -/
structure IsEvenAiCorePromptTemplates where
  IsEven : Option (Int → String)
  IsOdd : Option (Int → String)
  AreEqual : Option (Int → Int → String)
  AreNotEqual : Option (Int → Int → String)
  IsGreaterThan : Option (Int → Int → String)
  IsLessThan : Option (Int → Int → String)

/-- `IsEvenAiCore` from core.go: one template set and one query function. -/
structure IsEvenAiCore where
  promptTemplates : IsEvenAiCorePromptTemplates
  query : QueryFunc

namespace IsEvenAiCore

/-- `getPrompt` from core.go lines 53-106: resolves a prompt by name.
Returns `(prompt, error)`; an absent optional template yields `("", none)`,
an absent mandatory template yields the "mandatory and not defined" error,
too few arguments yield the "not enough arguments" error, an unknown name
yields the "unknown prompt name" error. -/
def getPrompt (c : IsEvenAiCore) (promptName : String) (args : List Int) :
    String × Option String :=
  match promptName with
  | "isEven" =>
    match c.promptTemplates.IsEven with
    | none => ("", some "isEven prompt template is mandatory and not defined")
    | some t =>
      match args with
      | [] => ("", some "not enough arguments for isEven prompt")
      | a :: _ => (t a, none)
  | "isOdd" =>
    match c.promptTemplates.IsOdd with
    | none => ("", none)
    | some t =>
      match args with
      | [] => ("", some "not enough arguments for isOdd prompt")
      | a :: _ => (t a, none)
  | "areEqual" =>
    match c.promptTemplates.AreEqual with
    | none => ("", some "areEqual prompt template is mandatory and not defined")
    | some t =>
      match args with
      | a :: b :: _ => (t a b, none)
      | _ => ("", some "not enough arguments for areEqual prompt")
  | "areNotEqual" =>
    match c.promptTemplates.AreNotEqual with
    | none => ("", none)
    | some t =>
      match args with
      | a :: b :: _ => (t a b, none)
      | _ => ("", some "not enough arguments for areNotEqual prompt")
  | "isGreaterThan" =>
    match c.promptTemplates.IsGreaterThan with
    | none => ("", some "isGreaterThan prompt template is mandatory and not defined")
    | some t =>
      match args with
      | a :: b :: _ => (t a b, none)
      | _ => ("", some "not enough arguments for isGreaterThan prompt")
  | "isLessThan" =>
    match c.promptTemplates.IsLessThan with
    | none => ("", none)
    | some t =>
      match args with
      | a :: b :: _ => (t a b, none)
      | _ => ("", some "not enough arguments for isLessThan prompt")
  | _ => ("", some ("unknown prompt name: " ++ promptName))

/-- `IsEven` from core.go lines 111-117. -/
def IsEven (c : IsEvenAiCore) (n : Int) : GoRes :=
  match c.getPrompt "isEven" [n] with
  | (_, some e) => (none, some ("failed to get prompt for IsEven: " ++ e))
  | (prompt, none) => c.query prompt

/-- `IsOdd` from core.go lines 121-142.  The Go code returns the wrapped
getPrompt error only when `err != nil && prompt != ""` (the
`err != nil && prompt == ""` branch falls through to the fallback); then an
empty prompt triggers the `!IsEven(n)` fallback, otherwise the prompt is
queried directly. -/
def IsOdd (c : IsEvenAiCore) (n : Int) : GoRes :=
  let pr := c.getPrompt "isOdd" [n]
  if pr.2 ≠ none ∧ pr.1 ≠ "" then
    (none, some ("failed to get prompt for IsOdd: " ++ pr.2.getD ""))
  else if pr.1 = "" then
    match c.IsEven n with
    | (_, some e) =>
      (none, some ("failed to determine IsOdd by inverting IsEven: " ++ e))
    | (none, none) => (none, none)
    | (some bv, none) => (some (!bv), none)
  else
    c.query pr.1

/-- `AreEqual` from core.go lines 145-151. -/
def AreEqual (c : IsEvenAiCore) (a b : Int) : GoRes :=
  match c.getPrompt "areEqual" [a, b] with
  | (_, some e) => (none, some ("failed to get prompt for AreEqual: " ++ e))
  | (prompt, none) => c.query prompt

/-- `AreNotEqual` from core.go lines 155-175, same shape as `IsOdd`. -/
def AreNotEqual (c : IsEvenAiCore) (a b : Int) : GoRes :=
  let pr := c.getPrompt "areNotEqual" [a, b]
  if pr.2 ≠ none ∧ pr.1 ≠ "" then
    (none, some ("failed to get prompt for AreNotEqual: " ++ pr.2.getD ""))
  else if pr.1 = "" then
    match c.AreEqual a b with
    | (_, some e) =>
      (none, some ("failed to determine AreNotEqual by inverting AreEqual: " ++ e))
    | (none, none) => (none, none)
    | (some bv, none) => (some (!bv), none)
  else
    c.query pr.1

/-- `IsGreaterThan` from core.go lines 178-184. -/
def IsGreaterThan (c : IsEvenAiCore) (a b : Int) : GoRes :=
  match c.getPrompt "isGreaterThan" [a, b] with
  | (_, some e) => (none, some ("failed to get prompt for IsGreaterThan: " ++ e))
  | (prompt, none) => c.query prompt

/-- `IsLessThan` from core.go lines 188-208: the fallback calls
`IsGreaterThan(b, a)` with the arguments swapped. -/
def IsLessThan (c : IsEvenAiCore) (a b : Int) : GoRes :=
  let pr := c.getPrompt "isLessThan" [a, b]
  if pr.2 ≠ none ∧ pr.1 ≠ "" then
    (none, some ("failed to get prompt for IsLessThan: " ++ pr.2.getD ""))
  else if pr.1 = "" then
    match c.IsGreaterThan b a with
    | (_, some e) =>
      (none, some ("failed to determine IsLessThan by inverting IsGreaterThan(b,a): " ++ e))
    | (none, none) => (none, none)
    | (some bv, none) => (some (!bv), none)
  else
    c.query pr.1

end IsEvenAiCore

/-- Spec-side description of the fallback post-processing an optional
operation applies to its complement call (core.go lines 130-141, 163-173,
196-206): a complement error is wrapped with `wrapMsg`, an undefined
complement stays undefined, a definite complement boolean is negated.
Used only in theorem statements. -/
def invertComplement (wrapMsg : String) (r : GoRes) : GoRes :=
  match r with
  | (_, some e) => (none, some (wrapMsg ++ e))
  | (none, none) => (none, none)
  | (some bv, none) => (some (!bv), none)

/-! Embedding of the Gemini `queryFunc` closure, gemini.go lines 107-144.
The genai response envelope is embedded structurally; the outcome of the
`GenerateContent` network call is an explicit `Except` input (error = the
mechanical call failure). -/

/-- One part of a genai candidate's content: either text or some other part
kind (function call, blob, ...), whose Go `%T`-style rendering is kept as a
string for the error message. -/
inductive GenaiPart where
  | text (s : String)
  | other (typeName : String)
deriving DecidableEq

/-- `genai.BlockReason`: `unspecified` is the zero value the code compares
against; any other reason carries its `String()` rendering. -/
inductive BlockReason where
  | unspecified
  | reason (s : String)
deriving DecidableEq

/-- `String()` of a block reason as used in the blocked-request error. -/
def BlockReason.render : BlockReason → String
  | .unspecified => "BLOCK_REASON_UNSPECIFIED"
  | .reason s => s

/-- A genai candidate, reduced to the fields queryFunc reads. -/
structure GenaiCandidate where
  parts : List GenaiPart
deriving DecidableEq

/-- `genai.GenerateContentResponse`, reduced to the fields queryFunc reads:
the candidate list and the optional prompt feedback's block reason. -/
structure GenaiResponse where
  candidates : List GenaiCandidate
  promptFeedback : Option BlockReason
deriving DecidableEq

/-- Embedding of `strings.TrimSpace`: drop whitespace characters from both
ends of the string (expressed structurally on the character list so that it
evaluates by kernel reduction). -/
def strTrimSpace (s : String) : String :=
  ⟨((s.data.dropWhile Char.isWhitespace).reverse.dropWhile Char.isWhitespace).reverse⟩

/-- Embedding of `strings.ToLower`: lower-case every character (ASCII case
mapping, which covers the "true"/"false" tokens the parser matches). -/
def strToLower (s : String) : String := ⟨s.data.map Char.toLower⟩

/-- `queryFunc` from gemini.go lines 107-144, with the outcome of the
`GenerateContent` call supplied as an `Except String GenaiResponse`:
- a failed call is wrapped as "failed to generate content from Gemini API:";
- no candidates or no parts: a non-unspecified block reason becomes the
  "Gemini API request blocked" error, otherwise `(none, none)` (undefined);
- a non-text first part becomes the "unexpected response part type" error;
- text is trimmed and lowercased, then "true"/"false" map to the definite
  booleans and anything else to `(none, none)`. -/
def geminiQueryFunc (callResult : Except String GenaiResponse) : GoRes :=
  match callResult with
  | .error e => (none, some ("failed to generate content from Gemini API: " ++ e))
  | .ok resp =>
    match resp.candidates with
    | [] => geminiEmptyCase resp
    | c :: _ =>
      match c.parts with
      | [] => geminiEmptyCase resp
      | p :: _ =>
        match p with
        | .other typeName =>
          (none, some ("unexpected response part type: " ++ typeName ++ " from Gemini API"))
        | .text s =>
          let responseContent := strToLower (strTrimSpace s)
          if responseContent = "true" then (some true, none)
          else if responseContent = "false" then (some false, none)
          else (none, none)
where
  /-- gemini.go lines 118-123: the branch for an empty candidate/part
  list. -/
  geminiEmptyCase (resp : GenaiResponse) : GoRes :=
    match resp.promptFeedback with
    | some br =>
      if br ≠ BlockReason.unspecified then
        (none, some ("Gemini API request blocked, reason: " ++ br.render))
      else (none, none)
    | none => (none, none)

/-! Embedding of the global single instance, convenience.go.  The mutable
globals `globalGeminiInstance` / `apiKeyIsSet` become an explicit state
record; the mutex serialises access and has no observable effect on the
sequential state machine.  `NewIsEvenAiGemini` performs a network call, so
its outcome is an explicit `Except` input to `SetAPIKey`; the held
`IsEvenAiGemini` is represented by its embedded `IsEvenAiCore`, which is
what the six delegating operations use. -/

/-- The package-level mutable state of convenience.go lines 15-19. -/
structure GlobalState where
  globalGeminiInstance : Option IsEvenAiCore
  apiKeyIsSet : Bool

/-- Process start: both globals are zero values. -/
def initialGlobalState : GlobalState := ⟨none, false⟩

/-- `SetAPIKey` from convenience.go lines 24-67.  `construct` is the outcome
of `NewIsEvenAiGemini(clientOptions, mo)`.  Returns the new state and the
returned error. -/
def SetAPIKey (st : GlobalState) (apiKey : String)
    (construct : Except String IsEvenAiCore) : GlobalState × Option String :=
  if apiKey = "" then
    (⟨none, false⟩, some "API key cannot be empty")
  else
    match construct with
    | .error e =>
      (⟨none, false⟩,
       some ("failed to initialize global IsEvenAiGemini instance: " ++ e))
    | .ok inst => (⟨some inst, true⟩, none)

/-- `getGlobalGeminiInstance` from convenience.go lines 69-76. -/
def getGlobalGeminiInstance (st : GlobalState) : Except String IsEvenAiCore :=
  if !st.apiKeyIsSet || st.globalGeminiInstance.isNone then
    .error "gemini API key not set or instance not initialized. Call SetAPIKey() first"
  else
    match st.globalGeminiInstance with
    | some inst => .ok inst
    | none => .error "gemini API key not set or instance not initialized. Call SetAPIKey() first"

/-- Free function `IsEven` from convenience.go lines 80-86. -/
def IsEven (st : GlobalState) (n : Int) : GoRes :=
  match getGlobalGeminiInstance st with
  | .error e => (none, some e)
  | .ok client => client.IsEven n

/-- Free function `IsOdd` from convenience.go lines 89-95. -/
def IsOdd (st : GlobalState) (n : Int) : GoRes :=
  match getGlobalGeminiInstance st with
  | .error e => (none, some e)
  | .ok client => client.IsOdd n

/-- Free function `AreEqual` from convenience.go lines 98-104. -/
def AreEqual (st : GlobalState) (a b : Int) : GoRes :=
  match getGlobalGeminiInstance st with
  | .error e => (none, some e)
  | .ok client => client.AreEqual a b

/-- Free function `AreNotEqual` from convenience.go lines 107-113. -/
def AreNotEqual (st : GlobalState) (a b : Int) : GoRes :=
  match getGlobalGeminiInstance st with
  | .error e => (none, some e)
  | .ok client => client.AreNotEqual a b

/-- Free function `IsGreaterThan` from convenience.go lines 116-122. -/
def IsGreaterThan (st : GlobalState) (a b : Int) : GoRes :=
  match getGlobalGeminiInstance st with
  | .error e => (none, some e)
  | .ok client => client.IsGreaterThan a b

/-- Free function `IsLessThan` from convenience.go lines 125-131. -/
def IsLessThan (st : GlobalState) (a b : Int) : GoRes :=
  match getGlobalGeminiInstance st with
  | .error e => (none, some e)
  | .ok client => client.IsLessThan a b

/-! Concrete instantiations used to exercise the theorems on closed inputs. -/

/-- A query function answering definite true on every prompt. -/
def qTrue : QueryFunc := fun _ => (some true, none)

/-- A query function answering undefined (nil, nil) on every prompt. -/
def qUndef : QueryFunc := fun _ => (none, none)

/-- A query function failing with a bare mechanical error on every prompt. -/
def qBoom : QueryFunc := fun _ => (none, some "boom")

/-- Template set with the three mandatory templates defined and the three
optional ones absent, as the default Gemini set would be if the optional
slots were dropped. -/
def tmplMandatoryOnly : IsEvenAiCorePromptTemplates where
  IsEven := some fun n => "Is " ++ toString n ++ " an even number?"
  IsOdd := none
  AreEqual := some fun a b => "Are " ++ toString a ++ " and " ++ toString b ++ " equal?"
  AreNotEqual := none
  IsGreaterThan := some fun a b => "Is " ++ toString a ++ " greater than " ++ toString b ++ "?"
  IsLessThan := none

/-- Template set whose optional templates are defined but produce the empty
string. -/
def tmplEmptyOptional : IsEvenAiCorePromptTemplates where
  IsEven := some fun n => "Is " ++ toString n ++ " an even number?"
  IsOdd := some fun _ => ""
  AreEqual := some fun a b => "Are " ++ toString a ++ " and " ++ toString b ++ " equal?"
  AreNotEqual := some fun _ _ => ""
  IsGreaterThan := some fun a b => "Is " ++ toString a ++ " greater than " ++ toString b ++ "?"
  IsLessThan := some fun _ _ => ""

/-- Template set with all six slots nil (Go zero-value struct). -/
def tmplNone : IsEvenAiCorePromptTemplates := ⟨none, none, none, none, none, none⟩

/-- Core with mandatory templates only and an always-true query. -/
def coreTrue : IsEvenAiCore := ⟨tmplMandatoryOnly, qTrue⟩

/-- Core with mandatory templates only and an always-undefined query. -/
def coreUndef : IsEvenAiCore := ⟨tmplMandatoryOnly, qUndef⟩

/-- Core with mandatory templates only and an always-failing query. -/
def coreBoom : IsEvenAiCore := ⟨tmplMandatoryOnly, qBoom⟩

/-- Core with no templates at all. -/
def coreNoTmpl : IsEvenAiCore := ⟨tmplNone, qTrue⟩

/-- Core whose optional templates yield the empty string. -/
def coreEmptyOpt : IsEvenAiCore := ⟨tmplEmptyOptional, qTrue⟩

/-!  Claim theorems. -/

/-- C1.  Fallback negation law: for every optional operation (`IsOdd`,
`AreNotEqual`, `IsLessThan`) whose template is absent, if the complement
call (`IsEven n`, `AreEqual a b`, `IsGreaterThan b a` respectively) returns
a definite boolean with no error, the operation returns the logical
negation of that boolean with no error, for all integer arguments. -/
theorem fallback_negation_law (c : IsEvenAiCore) (n a b : Int) (b1 b2 b3 : Bool)
    (h1 : c.promptTemplates.IsOdd = none)
    (h2 : c.promptTemplates.AreNotEqual = none)
    (h3 : c.promptTemplates.IsLessThan = none)
    (he : c.IsEven n = (some b1, none))
    (hq : c.AreEqual a b = (some b2, none))
    (hg : c.IsGreaterThan b a = (some b3, none)) :
    c.IsOdd n = (some (!b1), none) ∧
    c.AreNotEqual a b = (some (!b2), none) ∧
    c.IsLessThan a b = (some (!b3), none) := by
  refine ⟨?_, ?_, ?_⟩ <;>
    simp [IsEvenAiCore.IsOdd, IsEvenAiCore.AreNotEqual, IsEvenAiCore.IsLessThan,
      IsEvenAiCore.getPrompt, h1, h2, h3, he, hq, hg]

/-- Witness for C1 on the concrete always-true core with absent optional
templates. -/
theorem fallback_negation_law_witness :
    coreTrue.IsOdd 4 = (some false, none) ∧
    coreTrue.AreNotEqual 1 2 = (some false, none) ∧
    coreTrue.IsLessThan 1 2 = (some false, none) :=
  fallback_negation_law coreTrue 4 1 2 true true true rfl rfl rfl rfl rfl rfl

/-- C2.  For every optional operation with no template configured, the query
function is invoked with the complement operation's prompt: `IsOdd n` with
the `isEven` template applied to `n`, `AreNotEqual a b` with the `areEqual`
template applied to `(a, b)`, and `IsLessThan a b` with the `isGreaterThan`
template applied to the swapped pair `(b, a)`; the result is the fallback
post-processing of the query's answer on exactly that prompt. -/
theorem fallback_uses_complement_prompt (c : IsEvenAiCore) (n a b : Int)
    (tf : Int → String) (tq tg : Int → Int → String)
    (h1 : c.promptTemplates.IsOdd = none)
    (h2 : c.promptTemplates.AreNotEqual = none)
    (h3 : c.promptTemplates.IsLessThan = none)
    (hE : c.promptTemplates.IsEven = some tf)
    (hQ : c.promptTemplates.AreEqual = some tq)
    (hG : c.promptTemplates.IsGreaterThan = some tg) :
    c.IsOdd n =
      invertComplement "failed to determine IsOdd by inverting IsEven: "
        (c.query (tf n)) ∧
    c.AreNotEqual a b =
      invertComplement "failed to determine AreNotEqual by inverting AreEqual: "
        (c.query (tq a b)) ∧
    c.IsLessThan a b =
      invertComplement "failed to determine IsLessThan by inverting IsGreaterThan(b,a): "
        (c.query (tg b a)) := by
  refine ⟨?_, ?_, ?_⟩ <;>
  · simp only [IsEvenAiCore.IsOdd, IsEvenAiCore.AreNotEqual, IsEvenAiCore.IsLessThan,
      IsEvenAiCore.IsEven, IsEvenAiCore.AreEqual, IsEvenAiCore.IsGreaterThan,
      IsEvenAiCore.getPrompt, h1, h2, h3, hE, hQ, hG]
    rcases hqr : c.query (tf n) with ⟨_ | bv, _ | e⟩ <;> simp [invertComplement, hqr]

/-- Witness for C2 on the concrete always-true core: the observed behavior
matches the complement prompt's query answer, negated. -/
theorem fallback_uses_complement_prompt_witness :
    coreTrue.IsOdd 4 =
      invertComplement "failed to determine IsOdd by inverting IsEven: "
        (coreTrue.query ("Is " ++ toString (4 : Int) ++ " an even number?")) ∧
    coreTrue.AreNotEqual 1 2 =
      invertComplement "failed to determine AreNotEqual by inverting AreEqual: "
        (coreTrue.query ("Are " ++ toString (1 : Int) ++ " and " ++ toString (2 : Int) ++ " equal?")) ∧
    coreTrue.IsLessThan 1 2 =
      invertComplement "failed to determine IsLessThan by inverting IsGreaterThan(b,a): "
        (coreTrue.query ("Is " ++ toString (2 : Int) ++ " greater than " ++ toString (1 : Int) ++ "?")) :=
  fallback_uses_complement_prompt coreTrue 4 1 2 _ _ _ rfl rfl rfl rfl rfl rfl

/-- C3.  Fallback transparency law: for every optional operation whose
template is absent, if the complement call returns the undefined tri-state
(nil result) with no error, the operation also returns undefined with no
error. -/
theorem fallback_transparency_law (c : IsEvenAiCore) (n a b : Int)
    (h1 : c.promptTemplates.IsOdd = none)
    (h2 : c.promptTemplates.AreNotEqual = none)
    (h3 : c.promptTemplates.IsLessThan = none)
    (he : c.IsEven n = (none, none))
    (hq : c.AreEqual a b = (none, none))
    (hg : c.IsGreaterThan b a = (none, none)) :
    c.IsOdd n = (none, none) ∧
    c.AreNotEqual a b = (none, none) ∧
    c.IsLessThan a b = (none, none) := by
  refine ⟨?_, ?_, ?_⟩ <;>
    simp [IsEvenAiCore.IsOdd, IsEvenAiCore.AreNotEqual, IsEvenAiCore.IsLessThan,
      IsEvenAiCore.getPrompt, h1, h2, h3, he, hq, hg]

/-- Witness for C3 on the concrete always-undefined core. -/
theorem fallback_transparency_law_witness :
    coreUndef.IsOdd 4 = (none, none) ∧
    coreUndef.AreNotEqual 1 2 = (none, none) ∧
    coreUndef.IsLessThan 1 2 = (none, none) :=
  fallback_transparency_law coreUndef 4 1 2 rfl rfl rfl rfl rfl rfl

/-- C4.  For every mandatory operation with its template defined, the
operation passes exactly the template's output for the given arguments to
the query function, and whenever the query function returns a definite
boolean with no error on that prompt, the operation returns that same value
unchanged with no error. -/
theorem mandatory_direct_passthrough (c : IsEvenAiCore) (n a b : Int)
    (b1 b2 b3 : Bool) (tf : Int → String) (tq tg : Int → Int → String)
    (hE : c.promptTemplates.IsEven = some tf)
    (hQ : c.promptTemplates.AreEqual = some tq)
    (hG : c.promptTemplates.IsGreaterThan = some tg)
    (he : c.query (tf n) = (some b1, none))
    (hq : c.query (tq a b) = (some b2, none))
    (hg : c.query (tg a b) = (some b3, none)) :
    (c.IsEven n = c.query (tf n) ∧ c.IsEven n = (some b1, none)) ∧
    (c.AreEqual a b = c.query (tq a b) ∧ c.AreEqual a b = (some b2, none)) ∧
    (c.IsGreaterThan a b = c.query (tg a b) ∧ c.IsGreaterThan a b = (some b3, none)) := by
  refine ⟨⟨?_, ?_⟩, ⟨?_, ?_⟩, ⟨?_, ?_⟩⟩ <;>
    simp [IsEvenAiCore.IsEven, IsEvenAiCore.AreEqual, IsEvenAiCore.IsGreaterThan,
      IsEvenAiCore.getPrompt, hE, hQ, hG, he, hq, hg]

/-- Witness for C4 on the concrete always-true core. -/
theorem mandatory_direct_passthrough_witness :
    (coreTrue.IsEven 4 = coreTrue.query ("Is " ++ toString (4 : Int) ++ " an even number?") ∧
      coreTrue.IsEven 4 = (some true, none)) ∧
    (coreTrue.AreEqual 1 2 =
        coreTrue.query ("Are " ++ toString (1 : Int) ++ " and " ++ toString (2 : Int) ++ " equal?") ∧
      coreTrue.AreEqual 1 2 = (some true, none)) ∧
    (coreTrue.IsGreaterThan 1 2 =
        coreTrue.query ("Is " ++ toString (1 : Int) ++ " greater than " ++ toString (2 : Int) ++ "?") ∧
      coreTrue.IsGreaterThan 1 2 = (some true, none)) :=
  mandatory_direct_passthrough coreTrue 4 1 2 true true true _ _ _ rfl rfl rfl rfl rfl rfl

/-- C5, counterexample.  The claim says every error surfaced by a Query
Core operation is wrapped with enough context to identify which of the six
operations and which argument values were involved.  On the direct prompt
path the code returns the query function's result verbatim
(`return c.query(prompt)`), so two different operations called with
different argument values surface the identical bare error "boom": the
surfaced error carries no operation name and no argument values at all. -/
theorem error_context_counterexample :
    coreBoom.IsEven 2 = (none, some "boom") ∧
    coreBoom.AreEqual 1 3 = (none, some "boom") ∧
    (coreBoom.IsEven 2).2 = (coreBoom.AreEqual 1 3).2 :=
  ⟨rfl, rfl, rfl⟩

/-- C5, amended.  Errors are never retried or swallowed, but the context
wrapping is weaker than claimed: a query-function error on a direct prompt
path is returned verbatim with no added context; a template-resolution
error on a mandatory operation is wrapped with the operation's name (not
its argument values); a complement-call error in a fallback is wrapped with
the fallback relationship's name (not the argument values). -/
theorem error_propagation_amended (c cm : IsEvenAiCore) (n a b : Int)
    (tf : Int → String) (tq tg : Int → Int → String) (e1 e2 e3 : String)
    (hE : c.promptTemplates.IsEven = some tf)
    (hQ : c.promptTemplates.AreEqual = some tq)
    (hG : c.promptTemplates.IsGreaterThan = some tg)
    (h1 : c.promptTemplates.IsOdd = none)
    (h2 : c.promptTemplates.AreNotEqual = none)
    (h3 : c.promptTemplates.IsLessThan = none)
    (hqe1 : c.query (tf n) = (none, some e1))
    (hqe2 : c.query (tq a b) = (none, some e2))
    (hqe3 : c.query (tg b a) = (none, some e3))
    (hmE : cm.promptTemplates.IsEven = none)
    (hmQ : cm.promptTemplates.AreEqual = none)
    (hmG : cm.promptTemplates.IsGreaterThan = none) :
    (c.IsEven n = c.query (tf n) ∧
     c.AreEqual a b = c.query (tq a b) ∧
     c.IsGreaterThan a b = c.query (tg a b)) ∧
    (c.IsOdd n =
       (none, some ("failed to determine IsOdd by inverting IsEven: " ++ e1)) ∧
     c.AreNotEqual a b =
       (none, some ("failed to determine AreNotEqual by inverting AreEqual: " ++ e2)) ∧
     c.IsLessThan a b =
       (none, some ("failed to determine IsLessThan by inverting IsGreaterThan(b,a): " ++ e3))) ∧
    (cm.IsEven n =
       (none, some ("failed to get prompt for IsEven: " ++
         "isEven prompt template is mandatory and not defined")) ∧
     cm.AreEqual a b =
       (none, some ("failed to get prompt for AreEqual: " ++
         "areEqual prompt template is mandatory and not defined")) ∧
     cm.IsGreaterThan a b =
       (none, some ("failed to get prompt for IsGreaterThan: " ++
         "isGreaterThan prompt template is mandatory and not defined"))) := by
  refine ⟨⟨?_, ?_, ?_⟩, ⟨?_, ?_, ?_⟩, ⟨?_, ?_, ?_⟩⟩ <;>
    simp [IsEvenAiCore.IsEven, IsEvenAiCore.AreEqual, IsEvenAiCore.IsGreaterThan,
      IsEvenAiCore.IsOdd, IsEvenAiCore.AreNotEqual, IsEvenAiCore.IsLessThan,
      IsEvenAiCore.getPrompt, hE, hQ, hG, h1, h2, h3, hqe1, hqe2, hqe3, hmE, hmQ, hmG]

/-- Witness for the amended C5 on the always-failing core and the
template-free core. -/
theorem error_propagation_amended_witness :
    (coreBoom.IsEven 2 = coreBoom.query ("Is " ++ toString (2 : Int) ++ " an even number?") ∧
     coreBoom.AreEqual 1 3 =
       coreBoom.query ("Are " ++ toString (1 : Int) ++ " and " ++ toString (3 : Int) ++ " equal?") ∧
     coreBoom.IsGreaterThan 1 3 =
       coreBoom.query ("Is " ++ toString (1 : Int) ++ " greater than " ++ toString (3 : Int) ++ "?")) ∧
    (coreBoom.IsOdd 2 =
       (none, some ("failed to determine IsOdd by inverting IsEven: " ++ "boom")) ∧
     coreBoom.AreNotEqual 1 3 =
       (none, some ("failed to determine AreNotEqual by inverting AreEqual: " ++ "boom")) ∧
     coreBoom.IsLessThan 1 3 =
       (none, some ("failed to determine IsLessThan by inverting IsGreaterThan(b,a): " ++ "boom"))) ∧
    (coreNoTmpl.IsEven 2 =
       (none, some ("failed to get prompt for IsEven: " ++
         "isEven prompt template is mandatory and not defined")) ∧
     coreNoTmpl.AreEqual 1 3 =
       (none, some ("failed to get prompt for AreEqual: " ++
         "areEqual prompt template is mandatory and not defined")) ∧
     coreNoTmpl.IsGreaterThan 1 3 =
       (none, some ("failed to get prompt for IsGreaterThan: " ++
         "isGreaterThan prompt template is mandatory and not defined"))) :=
  error_propagation_amended coreBoom coreNoTmpl 2 1 3 _ _ _ "boom" "boom" "boom"
    rfl rfl rfl rfl rfl rfl rfl rfl rfl rfl rfl rfl

/-- C6.  Missing-mandatory-template law, for each mandatory operation
independently: a Query Core whose `IsEven` (resp. `AreEqual`,
`IsGreaterThan`) template is nil returns, from that operation, a non-nil
error whose message contains "mandatory and not defined" (the message is
stated as an explicit concatenation around that substring).  The conclusion
holds for every query function the core may hold, so the query function is
never invoked on this path. -/
theorem missing_mandatory_template_law (c1 c2 c3 : IsEvenAiCore) (n a b : Int)
    (hmE : c1.promptTemplates.IsEven = none)
    (hmQ : c2.promptTemplates.AreEqual = none)
    (hmG : c3.promptTemplates.IsGreaterThan = none) :
    c1.IsEven n =
      (none, some ("failed to get prompt for IsEven: isEven prompt template is " ++
        "mandatory and not defined")) ∧
    c2.AreEqual a b =
      (none, some ("failed to get prompt for AreEqual: areEqual prompt template is " ++
        "mandatory and not defined")) ∧
    c3.IsGreaterThan a b =
      (none, some ("failed to get prompt for IsGreaterThan: isGreaterThan prompt template is " ++
        "mandatory and not defined")) := by
  refine ⟨?_, ?_, ?_⟩ <;>
    simp [IsEvenAiCore.IsEven, IsEvenAiCore.AreEqual, IsEvenAiCore.IsGreaterThan,
      IsEvenAiCore.getPrompt, hmE, hmQ, hmG]

/-- Witness for C6 on the template-free core. -/
theorem missing_mandatory_template_law_witness :
    coreNoTmpl.IsEven 2 =
      (none, some ("failed to get prompt for IsEven: isEven prompt template is " ++
        "mandatory and not defined")) ∧
    coreNoTmpl.AreEqual 1 3 =
      (none, some ("failed to get prompt for AreEqual: areEqual prompt template is " ++
        "mandatory and not defined")) ∧
    coreNoTmpl.IsGreaterThan 1 3 =
      (none, some ("failed to get prompt for IsGreaterThan: isGreaterThan prompt template is " ++
        "mandatory and not defined")) :=
  missing_mandatory_template_law coreNoTmpl coreNoTmpl coreNoTmpl 2 1 3 rfl rfl rfl

/-- A well-formed backend response with no candidates that the backend
flagged as blocked for safety. -/
def blockedResp : GenaiResponse := ⟨[], some (.reason "SAFETY")⟩

/-- C7, counterexample.  The claim says a response flagged as
blocked/filtered by the backend maps to undefined (nil result, nil error),
never to an error.  On the concrete blocked response the Gemini query
function instead returns a non-nil "Gemini API request blocked" error. -/
theorem gemini_blocked_counterexample :
    geminiQueryFunc (.ok blockedResp) =
      (none, some "Gemini API request blocked, reason: SAFETY") ∧
    (geminiQueryFunc (.ok blockedResp)).2 ≠ none :=
  ⟨rfl, by decide⟩

/-- C7, amended.  The Gemini query function parses the primary answer text
case-insensitively and trimmed of surrounding whitespace, maps exactly
"true" to definite-true and exactly "false" to definite-false, and maps
unrecognized text or an empty (unblocked) response to undefined (nil, nil);
a mechanical call failure is wrapped as an error.  However a response
flagged as blocked/filtered yields a "Gemini API request blocked" error,
and a non-text first part yields an "unexpected response part type" error —
not undefined as the claim stated. -/
theorem gemini_parse_amended (e s1 s2 s3 typeName : String)
    (rest : List GenaiCandidate) (prest : List GenaiPart)
    (br : BlockReason) (pf : Option BlockReason)
    (hbr : br ≠ BlockReason.unspecified)
    (hs1 : strToLower (strTrimSpace s1) = "true")
    (hs2 : strToLower (strTrimSpace s2) = "false")
    (hs3t : strToLower (strTrimSpace s3) ≠ "true")
    (hs3f : strToLower (strTrimSpace s3) ≠ "false") :
    geminiQueryFunc (.error e) =
      (none, some ("failed to generate content from Gemini API: " ++ e)) ∧
    geminiQueryFunc (.ok ⟨[], some br⟩) =
      (none, some ("Gemini API request blocked, reason: " ++ br.render)) ∧
    geminiQueryFunc (.ok ⟨[], some BlockReason.unspecified⟩) = (none, none) ∧
    geminiQueryFunc (.ok ⟨[], none⟩) = (none, none) ∧
    geminiQueryFunc (.ok ⟨⟨[]⟩ :: rest, none⟩) = (none, none) ∧
    geminiQueryFunc (.ok ⟨⟨.other typeName :: prest⟩ :: rest, pf⟩) =
      (none, some ("unexpected response part type: " ++ typeName ++ " from Gemini API")) ∧
    geminiQueryFunc (.ok ⟨⟨.text s1 :: prest⟩ :: rest, pf⟩) = (some true, none) ∧
    geminiQueryFunc (.ok ⟨⟨.text s2 :: prest⟩ :: rest, pf⟩) = (some false, none) ∧
    geminiQueryFunc (.ok ⟨⟨.text s3 :: prest⟩ :: rest, pf⟩) = (none, none) := by
  refine ⟨rfl, ?_, rfl, rfl, rfl, rfl, ?_, ?_, ?_⟩ <;>
    simp [geminiQueryFunc, geminiQueryFunc.geminiEmptyCase, hbr, hs1, hs2, hs3t, hs3f]

/-- Witness for the amended C7 on concrete responses, including the
whitespace-and-case normalization of " TRUE ". -/
theorem gemini_parse_amended_witness :
    geminiQueryFunc (.error "net down") =
      (none, some ("failed to generate content from Gemini API: " ++ "net down")) ∧
    geminiQueryFunc (.ok ⟨[], some (.reason "SAFETY")⟩) =
      (none, some ("Gemini API request blocked, reason: " ++ (BlockReason.reason "SAFETY").render)) ∧
    geminiQueryFunc (.ok ⟨[], some BlockReason.unspecified⟩) = (none, none) ∧
    geminiQueryFunc (.ok ⟨[], none⟩) = (none, none) ∧
    geminiQueryFunc (.ok ⟨⟨[]⟩ :: [], none⟩) = (none, none) ∧
    geminiQueryFunc (.ok ⟨⟨.other "genai.FunctionCall" :: []⟩ :: [], none⟩) =
      (none, some ("unexpected response part type: " ++ "genai.FunctionCall" ++ " from Gemini API")) ∧
    geminiQueryFunc (.ok ⟨⟨.text " TRUE " :: []⟩ :: [], none⟩) = (some true, none) ∧
    geminiQueryFunc (.ok ⟨⟨.text "False" :: []⟩ :: [], none⟩) = (some false, none) ∧
    geminiQueryFunc (.ok ⟨⟨.text "maybe" :: []⟩ :: [], none⟩) = (none, none) :=
  gemini_parse_amended "net down" " TRUE " "False" "maybe" "genai.FunctionCall"
    [] [] (.reason "SAFETY") none (by decide) (by decide) (by decide) (by decide) (by decide)

/-- C8.  Global instance lifecycle: in the initial state every public free
function returns the configuration error without consulting any instance;
`SetAPIKey` with the empty credential clears the instance, returns the
"API key cannot be empty" error, and leaves a state in which the free
functions again return the configuration error; after a `SetAPIKey` call
with a non-empty key whose construction succeeds, each free function
delegates to the held instance's matching operation and returns its result
unmodified. -/
theorem global_lifecycle (st st2 : GlobalState) (key : String)
    (cons : Except String IsEvenAiCore) (inst : IsEvenAiCore) (n a b : Int)
    (hkey : key ≠ "") :
    (IsEven initialGlobalState n =
       (none, some "gemini API key not set or instance not initialized. Call SetAPIKey() first") ∧
     IsOdd initialGlobalState n =
       (none, some "gemini API key not set or instance not initialized. Call SetAPIKey() first") ∧
     AreEqual initialGlobalState a b =
       (none, some "gemini API key not set or instance not initialized. Call SetAPIKey() first") ∧
     AreNotEqual initialGlobalState a b =
       (none, some "gemini API key not set or instance not initialized. Call SetAPIKey() first") ∧
     IsGreaterThan initialGlobalState a b =
       (none, some "gemini API key not set or instance not initialized. Call SetAPIKey() first") ∧
     IsLessThan initialGlobalState a b =
       (none, some "gemini API key not set or instance not initialized. Call SetAPIKey() first")) ∧
    (SetAPIKey st "" cons = (⟨none, false⟩, some "API key cannot be empty") ∧
     IsEven (SetAPIKey st "" cons).1 n =
       (none, some "gemini API key not set or instance not initialized. Call SetAPIKey() first") ∧
     IsOdd (SetAPIKey st "" cons).1 n =
       (none, some "gemini API key not set or instance not initialized. Call SetAPIKey() first") ∧
     AreEqual (SetAPIKey st "" cons).1 a b =
       (none, some "gemini API key not set or instance not initialized. Call SetAPIKey() first") ∧
     AreNotEqual (SetAPIKey st "" cons).1 a b =
       (none, some "gemini API key not set or instance not initialized. Call SetAPIKey() first") ∧
     IsGreaterThan (SetAPIKey st "" cons).1 a b =
       (none, some "gemini API key not set or instance not initialized. Call SetAPIKey() first") ∧
     IsLessThan (SetAPIKey st "" cons).1 a b =
       (none, some "gemini API key not set or instance not initialized. Call SetAPIKey() first")) ∧
    (SetAPIKey st2 key (.ok inst) = (⟨some inst, true⟩, none) ∧
     IsEven (SetAPIKey st2 key (.ok inst)).1 n = inst.IsEven n ∧
     IsOdd (SetAPIKey st2 key (.ok inst)).1 n = inst.IsOdd n ∧
     AreEqual (SetAPIKey st2 key (.ok inst)).1 a b = inst.AreEqual a b ∧
     AreNotEqual (SetAPIKey st2 key (.ok inst)).1 a b = inst.AreNotEqual a b ∧
     IsGreaterThan (SetAPIKey st2 key (.ok inst)).1 a b = inst.IsGreaterThan a b ∧
     IsLessThan (SetAPIKey st2 key (.ok inst)).1 a b = inst.IsLessThan a b) := by
  refine ⟨⟨?_, ?_, ?_, ?_, ?_, ?_⟩, ⟨?_, ?_, ?_, ?_, ?_, ?_, ?_⟩,
    ⟨?_, ?_, ?_, ?_, ?_, ?_, ?_⟩⟩ <;>
    simp [IsEven, IsOdd, AreEqual, AreNotEqual, IsGreaterThan, IsLessThan,
      getGlobalGeminiInstance, SetAPIKey, initialGlobalState, hkey]

/-- Witness for C8 on a concrete key and the always-true core. -/
theorem global_lifecycle_witness :
    (IsEven initialGlobalState 2 =
       (none, some "gemini API key not set or instance not initialized. Call SetAPIKey() first") ∧
     IsOdd initialGlobalState 2 =
       (none, some "gemini API key not set or instance not initialized. Call SetAPIKey() first") ∧
     AreEqual initialGlobalState 1 3 =
       (none, some "gemini API key not set or instance not initialized. Call SetAPIKey() first") ∧
     AreNotEqual initialGlobalState 1 3 =
       (none, some "gemini API key not set or instance not initialized. Call SetAPIKey() first") ∧
     IsGreaterThan initialGlobalState 1 3 =
       (none, some "gemini API key not set or instance not initialized. Call SetAPIKey() first") ∧
     IsLessThan initialGlobalState 1 3 =
       (none, some "gemini API key not set or instance not initialized. Call SetAPIKey() first")) ∧
    (SetAPIKey initialGlobalState "" (.ok coreTrue) =
       (⟨none, false⟩, some "API key cannot be empty") ∧
     IsEven (SetAPIKey initialGlobalState "" (.ok coreTrue)).1 2 =
       (none, some "gemini API key not set or instance not initialized. Call SetAPIKey() first") ∧
     IsOdd (SetAPIKey initialGlobalState "" (.ok coreTrue)).1 2 =
       (none, some "gemini API key not set or instance not initialized. Call SetAPIKey() first") ∧
     AreEqual (SetAPIKey initialGlobalState "" (.ok coreTrue)).1 1 3 =
       (none, some "gemini API key not set or instance not initialized. Call SetAPIKey() first") ∧
     AreNotEqual (SetAPIKey initialGlobalState "" (.ok coreTrue)).1 1 3 =
       (none, some "gemini API key not set or instance not initialized. Call SetAPIKey() first") ∧
     IsGreaterThan (SetAPIKey initialGlobalState "" (.ok coreTrue)).1 1 3 =
       (none, some "gemini API key not set or instance not initialized. Call SetAPIKey() first") ∧
     IsLessThan (SetAPIKey initialGlobalState "" (.ok coreTrue)).1 1 3 =
       (none, some "gemini API key not set or instance not initialized. Call SetAPIKey() first")) ∧
    (SetAPIKey initialGlobalState "test-key" (.ok coreTrue) =
       (⟨some coreTrue, true⟩, none) ∧
     IsEven (SetAPIKey initialGlobalState "test-key" (.ok coreTrue)).1 2 = coreTrue.IsEven 2 ∧
     IsOdd (SetAPIKey initialGlobalState "test-key" (.ok coreTrue)).1 2 = coreTrue.IsOdd 2 ∧
     AreEqual (SetAPIKey initialGlobalState "test-key" (.ok coreTrue)).1 1 3 =
       coreTrue.AreEqual 1 3 ∧
     AreNotEqual (SetAPIKey initialGlobalState "test-key" (.ok coreTrue)).1 1 3 =
       coreTrue.AreNotEqual 1 3 ∧
     IsGreaterThan (SetAPIKey initialGlobalState "test-key" (.ok coreTrue)).1 1 3 =
       coreTrue.IsGreaterThan 1 3 ∧
     IsLessThan (SetAPIKey initialGlobalState "test-key" (.ok coreTrue)).1 1 3 =
       coreTrue.IsLessThan 1 3) :=
  global_lifecycle initialGlobalState initialGlobalState "test-key"
    (.ok coreTrue) coreTrue 2 1 3 (by decide)

/-- C9.  For every optional operation whose template is defined but
produces the empty string for the given arguments, the operation behaves
exactly as if the template were absent: it returns the same result as the
core whose corresponding optional slot is nil (same mandatory templates,
same query function), i.e. the empty prompt is never passed to the query
function and the complement fallback runs instead. -/
theorem empty_template_triggers_fallback (c : IsEvenAiCore) (n a b : Int)
    (t1 : Int → String) (t2 t3 : Int → Int → String)
    (h1 : c.promptTemplates.IsOdd = some t1) (ht1 : t1 n = "")
    (h2 : c.promptTemplates.AreNotEqual = some t2) (ht2 : t2 a b = "")
    (h3 : c.promptTemplates.IsLessThan = some t3) (ht3 : t3 a b = "") :
    c.IsOdd n =
      IsEvenAiCore.IsOdd ⟨{ c.promptTemplates with IsOdd := none }, c.query⟩ n ∧
    c.AreNotEqual a b =
      IsEvenAiCore.AreNotEqual ⟨{ c.promptTemplates with AreNotEqual := none }, c.query⟩ a b ∧
    c.IsLessThan a b =
      IsEvenAiCore.IsLessThan ⟨{ c.promptTemplates with IsLessThan := none }, c.query⟩ a b := by
  refine ⟨?_, ?_, ?_⟩ <;>
    simp [IsEvenAiCore.IsOdd, IsEvenAiCore.AreNotEqual, IsEvenAiCore.IsLessThan,
      IsEvenAiCore.IsEven, IsEvenAiCore.AreEqual, IsEvenAiCore.IsGreaterThan,
      IsEvenAiCore.getPrompt, h1, h2, h3, ht1, ht2, ht3]

/-- Witness for C9 on the core whose optional templates produce "". -/
theorem empty_template_triggers_fallback_witness :
    coreEmptyOpt.IsOdd 4 =
      IsEvenAiCore.IsOdd ⟨{ coreEmptyOpt.promptTemplates with IsOdd := none },
        coreEmptyOpt.query⟩ 4 ∧
    coreEmptyOpt.AreNotEqual 1 2 =
      IsEvenAiCore.AreNotEqual ⟨{ coreEmptyOpt.promptTemplates with AreNotEqual := none },
        coreEmptyOpt.query⟩ 1 2 ∧
    coreEmptyOpt.IsLessThan 1 2 =
      IsEvenAiCore.IsLessThan ⟨{ coreEmptyOpt.promptTemplates with IsLessThan := none },
        coreEmptyOpt.query⟩ 1 2 :=
  empty_template_triggers_fallback coreEmptyOpt 4 1 2 _ _ _ rfl rfl rfl rfl rfl rfl

/-- C10.  Invariant of the global state: it holds initially and after every
`SetAPIKey` call regardless of outcome that `apiKeyIsSet` is true exactly
when `globalGeminiInstance` is non-nil; `getGlobalGeminiInstance` returns
the held instance exactly in the configured state and otherwise the
"not set or instance not initialized" error. -/
theorem global_state_invariant (st st1 st2 : GlobalState) (key : String)
    (cons : Except String IsEvenAiCore) (inst : IsEvenAiCore)
    (hconf1 : st1.globalGeminiInstance = some inst)
    (hconf2 : st1.apiKeyIsSet = true)
    (hunconf : st2.apiKeyIsSet = false ∨ st2.globalGeminiInstance = none) :
    (initialGlobalState.apiKeyIsSet = true ↔
      initialGlobalState.globalGeminiInstance ≠ none) ∧
    ((SetAPIKey st key cons).1.apiKeyIsSet = true ↔
      (SetAPIKey st key cons).1.globalGeminiInstance ≠ none) ∧
    getGlobalGeminiInstance st1 = .ok inst ∧
    getGlobalGeminiInstance st2 =
      .error "gemini API key not set or instance not initialized. Call SetAPIKey() first" := by
  refine ⟨by simp [initialGlobalState], ?_, ?_, ?_⟩
  · unfold SetAPIKey
    rcases cons with e | i <;> by_cases hk : key = "" <;> simp [hk]
  · simp [getGlobalGeminiInstance, hconf1, hconf2]
  · rcases hunconf with h | h <;> simp [getGlobalGeminiInstance, h]

/-- Witness for C10 on concrete configured and unconfigured states. -/
theorem global_state_invariant_witness :
    (initialGlobalState.apiKeyIsSet = true ↔
      initialGlobalState.globalGeminiInstance ≠ none) ∧
    ((SetAPIKey initialGlobalState "test-key" (.ok coreTrue)).1.apiKeyIsSet = true ↔
      (SetAPIKey initialGlobalState "test-key" (.ok coreTrue)).1.globalGeminiInstance ≠ none) ∧
    getGlobalGeminiInstance ⟨some coreTrue, true⟩ = .ok coreTrue ∧
    getGlobalGeminiInstance initialGlobalState =
      .error "gemini API key not set or instance not initialized. Call SetAPIKey() first" :=
  global_state_invariant initialGlobalState ⟨some coreTrue, true⟩ initialGlobalState
    "test-key" (.ok coreTrue) coreTrue rfl rfl (Or.inl rfl)

end IsEvenAi
